import Mathlib

/-!
Verification of the cartridge memory-mapper subsystem of the tetanes NES
emulator, shallowly embedded from the Rust sources:

* `src/mapper.rs`          — loader dispatch, `Mirroring` and its save/load
* `src/mapper/cnrom.rs`    — CNROM (mapper 3)
* `src/mapper/m004_txrom.rs` — TxROM/MMC3 (mapper 4)

Machine integers (`u8`, `u16`, `usize`) are embedded as `Nat`, with an
explicit `% 65536` where 16-bit wraparound matters.  Fallible operations
return `Except`-like sums; a Rust `panic!` is modelled as its own outcome
constructor, distinct from an `Err` returned to the caller.
-/

set_option maxHeartbeats 1000000

/-- Nametable mirroring mode, from `enum Mirroring` in `src/mapper.rs`. -/
inductive Mirroring
  | Horizontal
  | Vertical
  | SingleScreenA
  | SingleScreenB
  | FourScreen
  deriving DecidableEq, Repr

/-- The variant tags of `enum MapperType` that `load_rom` can construct
(`NullMapper` is never produced by `load_rom`).  The `Sxrom` tag carries the
MMC1 variant hint passed to `Sxrom::load`. -/
inductive MMC1Variant
  | A
  | B
  deriving DecidableEq, Repr

/-- Which mapper variant the loader constructs. -/
inductive MapperTag
  | nrom
  | sxrom (v : MMC1Variant)
  | uxrom
  | cnromTag
  | txrom
  | exrom
  | axrom
  | pxrom
  deriving DecidableEq, Repr

/-- The mapper-number dispatch of `load_rom` in `src/mapper.rs` (lines
112–129): the `match cart.header.mapper_num` that either constructs a
variant or fails with `nes_err!("unsupported mapper number: {}", n)`.
Cartridge parsing (`Cartridge::from_rom`) is a collaborator and is not
modelled; this function captures which variant is selected for each mapper
number. -/
def load_rom (mapper_num : Nat) : Except String MapperTag :=
  if mapper_num = 0 then Except.ok MapperTag.nrom
  else if mapper_num = 1 then Except.ok (MapperTag.sxrom MMC1Variant.B)
  else if mapper_num = 2 ∨ mapper_num = 71 then Except.ok MapperTag.uxrom
  else if mapper_num = 3 then Except.ok MapperTag.cnromTag
  else if mapper_num = 4 then Except.ok MapperTag.txrom
  else if mapper_num = 5 then Except.ok MapperTag.exrom
  else if mapper_num = 7 then Except.ok MapperTag.axrom
  else if mapper_num = 9 then Except.ok MapperTag.pxrom
  else if mapper_num = 155 then Except.ok (MapperTag.sxrom MMC1Variant.A)
  else Except.error ("unsupported mapper number: " ++ toString mapper_num)

/-- Outcome of a Rust call that returns `NesResult<T>` but may also panic:
`ok` is `Ok`, `err` is an `Err` returned to the caller, `panicked` is a
`panic!` that unwinds past the caller. -/
inductive RustOutcome (α : Type)
  | ok (value : α)
  | err (msg : String)
  | panicked (msg : String)
  deriving DecidableEq, Repr

/-- From `impl Savable for Mirroring`, `load` (`src/mapper.rs` lines 147–159):
after reading a byte `val` from the stream, decode it.  Codes 0–4 decode to
the five mirroring modes; any other code hits
`panic!("invalid Mirroring value {}", val)` — a panic, not an `Err`. -/
def Mirroring.loadVal (val : Nat) : RustOutcome Mirroring :=
  if val = 0 then RustOutcome.ok Mirroring.Horizontal
  else if val = 1 then RustOutcome.ok Mirroring.Vertical
  else if val = 2 then RustOutcome.ok Mirroring.SingleScreenA
  else if val = 3 then RustOutcome.ok Mirroring.SingleScreenB
  else if val = 4 then RustOutcome.ok Mirroring.FourScreen
  else RustOutcome.panicked ("invalid Mirroring value " ++ toString val)

/-- Cartridge header fields used by the CNROM variant (`cartridge.rs` is a
collaborator outside the mapper sources; sizes count 16K PRG / 8K CHR
banks, per the spec's data model). -/
structure NesHeader where
  prg_rom_size : Nat
  chr_rom_size : Nat
  deriving DecidableEq, Repr

/-- Cartridge memory regions accessed by CNROM: raw byte arrays, bytes as
`Nat` values below 256. -/
structure Cartridge where
  header : NesHeader
  prg_rom : List Nat
  chr_rom : List Nat
  prg_ram : List Nat
  deriving DecidableEq, Repr

/-- Embeds `struct Cnrom` from `src/mapper/cnrom.rs`: the owned cartridge plus the
CHR bank register and the two fixed PRG banks (`u16` fields). -/
structure Cnrom where
  cart : Cartridge
  chr_bank : Nat
  prg_bank_1 : Nat
  prg_bank_2 : Nat
  deriving DecidableEq, Repr

/-- Embeds `Cnrom::load`: `chr_bank` and `prg_bank_1` start at the decimal literal
`016` (= 16), `prg_bank_2` at `prg_rom_size - 1` cast to `u16`. -/
def Cnrom.load (cart : Cartridge) : Cnrom :=
  { cart := cart
    chr_bank := 16
    prg_bank_1 := 16
    prg_bank_2 := (cart.header.prg_rom_size - 1) % 65536 }

/-- Bounds-checked byte store into a byte array: Rust `arr[i] = v` panics
when `i` is out of range, modelled as `none`. -/
def setByte (l : List Nat) (i v : Nat) : Option (List Nat) :=
  if i < l.length then some (l.set i v) else none

/-- Embeds `Cnrom::readb` (`src/mapper/cnrom.rs` lines 34–60).  Offsets such as
`chr_bank * 0x2000 + addr` are `u16` arithmetic, hence the `% 65536`
(release-mode wraparound).  An out-of-range array index (a Rust panic) is
`none`; the unhandled-address arm logs a diagnostic and returns 0. -/
def Cnrom.readb (m : Cnrom) (addr : Nat) : Option Nat :=
  if addr ≤ 0x1FFF then
    let off := (m.chr_bank * 0x2000 + addr) % 65536
    if m.cart.header.chr_rom_size = 0 then m.cart.prg_rom.get? off
    else m.cart.chr_rom.get? off
  else if 0x6000 ≤ addr ∧ addr ≤ 0x7FFF then
    m.cart.prg_ram.get? (addr - 0x6000)
  else if 0x8000 ≤ addr ∧ addr ≤ 0xBFFF then
    m.cart.prg_rom.get? ((m.prg_bank_1 * 0x4000 + (addr - 0x8000)) % 65536)
  else if 0xC000 ≤ addr ∧ addr ≤ 0xFFFF then
    m.cart.prg_rom.get? ((m.prg_bank_2 * 0x4000 + (addr - 0xC000)) % 65536)
  else
    some 0

/-- Embeds `Cnrom::writeb` (`src/mapper/cnrom.rs` lines 62–76).  Pattern-table
writes go to `prg_rom` when the header declares no CHR-ROM and are dropped
otherwise; any write in `$8000-$FFFF` sets `chr_bank = val & 3`. -/
def Cnrom.writeb (m : Cnrom) (addr val : Nat) : Option Cnrom :=
  if addr ≤ 0x1FFF then
    if m.cart.header.chr_rom_size = 0 then
      let off := (m.chr_bank * 0x2000 + addr) % 65536
      match setByte m.cart.prg_rom off val with
      | some rom => some { m with cart := { m.cart with prg_rom := rom } }
      | none => none
    else some m
  else if 0x6000 ≤ addr ∧ addr ≤ 0x7FFF then
    match setByte m.cart.prg_ram (addr - 0x6000) val with
    | some ram => some { m with cart := { m.cart with prg_ram := ram } }
    | none => none
  else if 0x8000 ≤ addr ∧ addr ≤ 0xFFFF then
    some { m with chr_bank := val &&& 3 }
  else some m

/-- Modelled from the spec's words, for comparison with the source's
`writeb`: "masked to the number of address bits needed for the CHR size" —
the mask of just enough address bits to index `num_banks` 8K CHR banks. -/
def specChrBankMask (num_banks : Nat) : Nat := 2 ^ Nat.clog 2 num_banks - 1

/-- MMC3 silicon revision, from `enum Mmc3Revision` in
`src/mapper/m004_txrom.rs`. -/
inductive Mmc3Revision
  | A
  | BC
  | Acc
  deriving DecidableEq, Repr

/-- Modelled from the spec: the Bank Translator (`MemBanks` from
`crate::mem`, whose source is outside the mapper files).  Per spec §4.1 it
holds the window geometry, the backing-store size, and one raw bank index
per `window`-sized slot; `set` stores a raw index, wrapping is applied at
`translate` time.  Slots start at 0. -/
structure MemBanks where
  start : Nat
  window : Nat
  size : Nat
  banks : List Nat
  deriving DecidableEq, Repr

/-- Modelled from the spec: `MemBanks::new(start, end, size, window)`
allocates one slot per `window` bytes of the `start..=end` range. -/
def MemBanks.new (start endAddr size window : Nat) : MemBanks :=
  { start := start
    window := window
    size := size
    banks := List.replicate ((endAddr - start + 1) / window) 0 }

/-- Total number of `window`-sized banks in the backing store. -/
def MemBanks.bankCount (b : MemBanks) : Nat := b.size / b.window

/-- Modelled from the spec: `MemBanks::last()` returns
`total_banks_in_store - 1`. -/
def MemBanks.last (b : MemBanks) : Nat := b.bankCount - 1

/-- Modelled from the spec: `MemBanks::set(slot, bank)` stores a raw
(non-wrapped) bank index for one slot. -/
def MemBanks.set (b : MemBanks) (slot bank : Nat) : MemBanks :=
  { b with banks := b.banks.set slot bank }

/-- Modelled from the spec: `MemBanks::set_range(first, last, bank)`
assigns consecutive slots consecutive bank indices starting at `bank`. -/
def MemBanks.setRange (b : MemBanks) (first lastSlot bank : Nat) : MemBanks :=
  (List.range (lastSlot + 1 - first)).foldl
    (fun acc i => acc.set (first + i) (bank + i)) b

/-- Modelled from the spec: `MemBanks::translate(addr)` — slot from the
address, bank index wrapped modulo the store's bank count, then
`bank * window + intra_offset`. -/
def MemBanks.translate (b : MemBanks) (addr : Nat) : Nat :=
  let slot := (addr - b.start) / b.window
  let bank := b.banks.getD slot 0 % b.bankCount
  bank * b.window + (addr - b.start) % b.window

/-- Embeds `struct TxRegs` from `src/mapper/m004_txrom.rs`: the MMC3 register
file.  `bank_values` is the 8-entry table (a length-8 list here);
`last_clock` holds bit 12 of the last sub-`$2000` PPU address. -/
structure TxRegs where
  bank_select : Nat
  bank_values : List Nat
  irq_latch : Nat
  irq_counter : Nat
  irq_enabled : Bool
  irq_reload : Bool
  last_clock : Nat
  deriving DecidableEq, Repr

/-- Embeds `TxRegs::new()`: all-zero power-on register state. -/
def TxRegs.new : TxRegs :=
  { bank_select := 0
    bank_values := List.replicate 8 0
    irq_latch := 0
    irq_counter := 0
    irq_enabled := false
    irq_reload := false
    last_clock := 0 }

/-- Embeds `struct Txrom` from `src/mapper/m004_txrom.rs`. -/
structure Txrom where
  regs : TxRegs
  mirroring : Mirroring
  irq_pending : Bool
  revision : Mmc3Revision
  chr_banks : MemBanks
  prg_ram_banks : MemBanks
  prg_rom_banks : MemBanks
  deriving DecidableEq, Repr

/-- Cartridge facts the TxROM loader consumes (its `Cart` type lives
outside the mapper sources): the header mirroring and the PRG-ROM /
CHR-ROM byte counts. -/
structure Cart where
  mirroring : Mirroring
  prg_rom_len : Nat
  chr_rom_len : Nat
  deriving DecidableEq, Repr

/-- Embeds `Txrom::load` (`src/mapper/m004_txrom.rs` lines 87–108).  Modelled
from the spec where it touches the out-of-scope `Cart` methods:
`add_prg_ram(8K)` gives an 8K PRG-RAM, and when the cart has no CHR-ROM an
8K CHR-RAM backs the CHR windows (`cart.chr_len()`).  Then slots 2 and 3
of the PRG-ROM windows are fixed to `last - 1` and `last`. -/
def Txrom.load (cart : Cart) : Txrom :=
  let chr_len := if cart.chr_rom_len = 0 then 8 * 1024 else cart.chr_rom_len
  let t : Txrom :=
    { regs := TxRegs.new
      mirroring := cart.mirroring
      irq_pending := false
      revision := Mmc3Revision.BC
      chr_banks := MemBanks.new 0x0000 0x1FFF chr_len 1024
      prg_ram_banks := MemBanks.new 0x6000 0x7FFF (8 * 1024) (8 * 1024)
      prg_rom_banks := MemBanks.new 0x8000 0xFFFF cart.prg_rom_len (8 * 1024) }
  let last_bank := t.prg_rom_banks.last
  { t with prg_rom_banks := (t.prg_rom_banks.set 2 (last_bank - 1)).set 3 last_bank }

/-- Embeds `Txrom::update_banks` (`src/mapper/m004_txrom.rs` lines 115–148):
recompute every PRG and CHR window slot from the 8 bank values and the two
mode bits of `bank_select`. -/
def Txrom.updateBanks (s : Txrom) : Txrom :=
  let prg_last := s.prg_rom_banks.last
  let prg_lo := s.regs.bank_values.getD 6 0
  let prg_hi := s.regs.bank_values.getD 7 0
  let prg :=
    if s.regs.bank_select &&& 0x40 = 0x40 then
      ((s.prg_rom_banks.set 0 (prg_last - 1)).set 1 prg_hi).set 2 prg_lo
    else
      ((s.prg_rom_banks.set 0 prg_lo).set 1 prg_hi).set 2 (prg_last - 1)
  let prg := prg.set 3 prg_last
  let chr := fun i => s.regs.bank_values.getD i 0
  let chrB :=
    if s.regs.bank_select &&& 0x80 = 0x80 then
      (((((s.chr_banks.set 0 (chr 2)).set 1 (chr 3)).set 2 (chr 4)).set 3
        (chr 5)).setRange 4 5 (chr 0 &&& 0xFE)).setRange 6 7 (chr 1 &&& 0xFE)
    else
      (((((s.chr_banks.setRange 0 1 (chr 0 &&& 0xFE)).setRange 2 3
        (chr 1 &&& 0xFE)).set 4 (chr 2)).set 5 (chr 3)).set 6 (chr 4)).set 7 (chr 5)
  { s with prg_rom_banks := prg, chr_banks := chrB }

/-- Embeds `Txrom::clock_irq` (`src/mapper/m004_txrom.rs` lines 150–177): the A12
edge detector and IRQ counter.  Only addresses below `$2000` are
considered; a qualifying edge is 0→1 of address bit 12 for revisions A and
B/C, 1→0 for the Acclaim clone. -/
def Txrom.clockIrq (s : Txrom) (addr : Nat) : Txrom :=
  if addr < 0x2000 then
    let next_clock := (addr >>> 12) &&& 1
    let lastLevel : Nat := if s.revision = Mmc3Revision.Acc then 1 else 0
    let nextLevel : Nat := if s.revision = Mmc3Revision.Acc then 0 else 1
    let s1 :=
      if s.regs.last_clock = lastLevel ∧ next_clock = nextLevel then
        let counter := s.regs.irq_counter
        let newCounter :=
          if counter = 0 ∨ s.regs.irq_reload then s.regs.irq_latch
          else counter - 1
        let pending :=
          if (counter &&& 1 = 1 ∨ s.revision = Mmc3Revision.BC ∨ s.regs.irq_reload) ∧
              newCounter = 0 ∧ s.regs.irq_enabled then
            true
          else s.irq_pending
        { s with
          irq_pending := pending
          regs := { s.regs with irq_counter := newCounter, irq_reload := false } }
      else s
    { s1 with regs := { s1.regs with last_clock := next_clock } }
  else s

/-- Mirrors `MappedRead` from the mapper module: which memory region a bus read
resolves to, and the physical offset inside it. -/
inductive MappedRead
  | chr (off : Nat)
  | exRam (off : Nat)
  | prgRam (off : Nat)
  | prgRom (off : Nat)
  | unmapped
  deriving DecidableEq, Repr

/-- Mirrors `MappedWrite` from the mapper module: which memory region a bus write
resolves to, with offset and value, or no mapped destination. -/
inductive MappedWrite
  | chr (off val : Nat)
  | exRam (off val : Nat)
  | prgRam (off val : Nat)
  | unmapped
  deriving DecidableEq, Repr

/-- Embeds `Txrom::map_peek` (`src/mapper/m004_txrom.rs` lines 228–238): pure
address translation on `&self`.  The `$2000-$3EFF` arm is guarded by
four-screen mirroring; otherwise that range falls to the catch-all. -/
def Txrom.mapPeek (s : Txrom) (addr : Nat) : MappedRead :=
  if addr ≤ 0x1FFF then MappedRead.chr (s.chr_banks.translate addr)
  else if 0x2000 ≤ addr ∧ addr ≤ 0x3EFF ∧ s.mirroring = Mirroring.FourScreen then
    MappedRead.exRam (addr &&& 0x1FFF)
  else if 0x6000 ≤ addr ∧ addr ≤ 0x7FFF then
    MappedRead.prgRam (s.prg_ram_banks.translate addr)
  else if 0x8000 ≤ addr ∧ addr ≤ 0xFFFF then
    MappedRead.prgRom (s.prg_rom_banks.translate addr)
  else MappedRead.unmapped

/-- Embeds `Txrom::map_read` (`src/mapper/m004_txrom.rs` lines 222–226): clock
the IRQ counter, then peek.  Returns the mapped location together with the
updated state. -/
def Txrom.mapRead (s : Txrom) (addr : Nat) : MappedRead × Txrom :=
  let s1 := s.clockIrq addr
  (s1.mapPeek addr, s1)

/-- The `$8000-$FFFF` register block of `Txrom::map_write` (the inner
`match addr & 0xE001` of `src/mapper/m004_txrom.rs` lines 270–302): eight
control registers; the final `else` is the unreachable fall-through
(`addr ≥ 0x8000` forces one of the eight values). -/
def Txrom.writeRegister (s : Txrom) (addr val : Nat) : Txrom :=
  if addr &&& 0xE001 = 0x8000 then
    ({ s with regs := { s.regs with bank_select := val } }).updateBanks
  else if addr &&& 0xE001 = 0x8001 then
    ({ s with
      regs := { s.regs with
        bank_values := s.regs.bank_values.set (s.regs.bank_select &&& 0x07) val }
      }).updateBanks
  else if addr &&& 0xE001 = 0xA000 then
    if s.mirroring ≠ Mirroring.FourScreen then
      ({ s with
        mirroring :=
          if val &&& 0x01 = 0 then Mirroring.Vertical else Mirroring.Horizontal
        }).updateBanks
    else s
  else if addr &&& 0xE001 = 0xA001 then s
  else if addr &&& 0xE001 = 0xC000 then { s with regs := { s.regs with irq_latch := val } }
  else if addr &&& 0xE001 = 0xC001 then { s with regs := { s.regs with irq_reload := true } }
  else if addr &&& 0xE001 = 0xE000 then
    { s with irq_pending := false, regs := { s.regs with irq_enabled := false } }
  else if addr &&& 0xE001 = 0xE001 then
    { s with regs := { s.regs with irq_enabled := true } }
  else s

/-- Embeds `Txrom::map_write` (`src/mapper/m004_txrom.rs` lines 240–307): RAM
writes resolve to a mapped location; `$8000-$FFFF` writes go to the
register block. -/
def Txrom.mapWrite (s : Txrom) (addr val : Nat) : MappedWrite × Txrom :=
  if addr ≤ 0x1FFF then (MappedWrite.chr (s.chr_banks.translate addr) val, s)
  else if 0x2000 ≤ addr ∧ addr ≤ 0x3EFF ∧ s.mirroring = Mirroring.FourScreen then
    (MappedWrite.exRam (addr &&& 0x1FFF) val, s)
  else if 0x6000 ≤ addr ∧ addr ≤ 0x7FFF then
    (MappedWrite.prgRam (s.prg_ram_banks.translate addr) val, s)
  else if 0x8000 ≤ addr ∧ addr ≤ 0xFFFF then
    (MappedWrite.unmapped, s.writeRegister addr val)
  else (MappedWrite.unmapped, s)

/-- Embeds `impl Reset for Txrom` (`src/mapper/m004_txrom.rs` lines 310–316):
clear the pending IRQ, reinstall power-on registers, recompute banks. -/
def Txrom.reset (s : Txrom) : Txrom :=
  ({ s with irq_pending := false, regs := TxRegs.new }).updateBanks

/-- Embeds `Txrom::ppu_bus_read` — a PPU bus address notification clocks the IRQ
detector. -/
def Txrom.ppuBusRead (s : Txrom) (addr : Nat) : Txrom := s.clockIrq addr

/-- Embeds `Txrom::ppu_bus_write` — the written value is ignored; the address
clocks the IRQ detector. -/
def Txrom.ppuBusWrite (s : Txrom) (addr : Nat) (_val : Nat) : Txrom := s.clockIrq addr

/-- One bus-visible operation on a TxROM mapper: CPU/PPU reads and writes
through the memory map, PPU address notifications, and reset.  (`map_peek`
takes `&self` and cannot change the state.) -/
inductive TxOp
  | read (addr : Nat)
  | write (addr val : Nat)
  | ppuRead (addr : Nat)
  | ppuWrite (addr val : Nat)
  | reset
  deriving DecidableEq, Repr

/-- State after applying one operation. -/
def TxOp.apply : TxOp → Txrom → Txrom
  | TxOp.read a, s => (s.mapRead a).2
  | TxOp.write a v, s => (s.mapWrite a v).2
  | TxOp.ppuRead a, s => s.ppuBusRead a
  | TxOp.ppuWrite a v, s => s.ppuBusWrite a v
  | TxOp.reset, s => s.reset

/-- Operation addresses and values are bus-sized (`u16` / `u8`). -/
def TxOp.wf : TxOp → Prop
  | TxOp.read a => a < 65536
  | TxOp.write a v => a < 65536 ∧ v < 256
  | TxOp.ppuRead a => a < 65536
  | TxOp.ppuWrite a v => a < 65536 ∧ v < 256
  | TxOp.reset => True

instance (op : TxOp) : Decidable op.wf := by
  cases op <;> simp only [TxOp.wf] <;> infer_instance

/-- States reachable from `Txrom::load` by bus operations. -/
inductive TxReachable (cart : Cart) : Txrom → Prop
  | load : TxReachable cart (Txrom.load cart)
  | step (s : Txrom) (op : TxOp) :
      TxReachable cart s → TxReachable cart (op.apply s)

/-- A qualifying A12 edge for the current revision: the stored level is the
pre-edge level and bit 12 of `addr` is the post-edge level (0→1 for
revisions A and B/C, 1→0 for the Acclaim clone). -/
def Txrom.qualifies (s : Txrom) (addr : Nat) : Prop :=
  s.regs.last_clock = (if s.revision = Mmc3Revision.Acc then 1 else 0) ∧
    (addr >>> 12) &&& 1 = (if s.revision = Mmc3Revision.Acc then 0 else 1)

instance (s : Txrom) (addr : Nat) : Decidable (s.qualifies addr) := by
  unfold Txrom.qualifies; infer_instance

/-- Operations that acknowledge the latched IRQ: a CPU write decoding to
the `$E000` register, or a reset. -/
def TxOp.acks : TxOp → Prop
  | TxOp.write a _ => a &&& 0xE001 = 0xE000
  | TxOp.reset => True
  | _ => False

instance (op : TxOp) : Decidable op.acks := by
  cases op <;> simp only [TxOp.acks] <;> infer_instance

/-- The fixed-PRG-window invariant of the TxROM mapper: the PRG window
table has its four 8K slots, slot 3 holds the last bank, and the
second-to-last bank sits in slot 0 or slot 2 according to bank-select
bit 6. -/
def TxPrgInv (s : Txrom) : Prop :=
  s.prg_rom_banks.banks.length = 4 ∧
  s.prg_rom_banks.banks.getD 3 0 = s.prg_rom_banks.last ∧
  (s.regs.bank_select &&& 0x40 = 0x40 →
    s.prg_rom_banks.banks.getD 0 0 = s.prg_rom_banks.last - 1) ∧
  (¬s.regs.bank_select &&& 0x40 = 0x40 →
    s.prg_rom_banks.banks.getD 2 0 = s.prg_rom_banks.last - 1)

/-- A concrete CNROM cartridge with one 8K CHR-ROM bank (header sizes
consistent with the byte arrays). -/
def cnromCartOneChr : Cartridge :=
  { header := { prg_rom_size := 2, chr_rom_size := 1 }
    prg_rom := List.replicate 32768 0
    chr_rom := List.replicate 8192 0
    prg_ram := List.replicate 8192 0 }

/-- A concrete CNROM cartridge that declares no CHR-ROM. -/
def cnromCartNoChr : Cartridge :=
  { header := { prg_rom_size := 2, chr_rom_size := 0 }
    prg_rom := List.replicate 32768 0
    chr_rom := []
    prg_ram := List.replicate 8192 0 }

/-- A concrete TxROM cartridge: 32K PRG-ROM (four 8K banks), 8K CHR-ROM,
horizontal mirroring. -/
def txCart0 : Cart :=
  { mirroring := Mirroring.Horizontal
    prg_rom_len := 32768
    chr_rom_len := 8192 }

/-- A concrete TxROM cartridge wired for four-screen mirroring. -/
def txCart4 : Cart :=
  { mirroring := Mirroring.FourScreen
    prg_rom_len := 32768
    chr_rom_len := 8192 }

/-- A freshly loaded TxROM state with the IRQ flag already latched. -/
def txPendingState : Txrom :=
  { Txrom.load txCart0 with irq_pending := true }

/-- A TxROM state poised to fire: counter 1, latch 0, IRQ enabled, on an
A12 low level. -/
def txFireState : Txrom :=
  { Txrom.load txCart0 with
    regs := { TxRegs.new with irq_counter := 1, irq_enabled := true } }

/-- C3: `load_rom` constructs a mapper variant exactly for mapper numbers
0, 1, 2, 3, 4, 5, 7, 9, 71 and 155; every other number fails with the
"unsupported mapper number" error carrying the id, constructing nothing. -/
theorem load_rom_supported_exactly (n : Nat) :
    ((∃ t, load_rom n = Except.ok t) ↔ n ∈ [0, 1, 2, 3, 4, 5, 7, 9, 71, 155]) ∧
    (n ∉ [0, 1, 2, 3, 4, 5, 7, 9, 71, 155] →
      load_rom n = Except.error ("unsupported mapper number: " ++ toString n)) := by
  unfold load_rom
  split_ifs with h1 h2 h3 h4 h5 h6 h7 h8 h9 <;> (simp_all; try omega)

/-- C3 witness: mapper 250 is rejected with the explicit error, mapper 4 is
constructed. -/
theorem load_rom_supported_exactly_witness :
    load_rom 250 = Except.error ("unsupported mapper number: " ++ toString 250) ∧
    (∃ t, load_rom 4 = Except.ok t) :=
  ⟨(load_rom_supported_exactly 250).2 (by decide),
   (load_rom_supported_exactly 4).1.mpr (by decide)⟩

/-- C4 counterexample: decoding the out-of-range mirroring code 5 does not
produce an `Err` returned to the caller — the code panics instead. -/
theorem mirroring_load_invalid_no_err :
    ¬∃ e, Mirroring.loadVal 5 = RustOutcome.err e := by
  rintro ⟨e, h⟩
  simp [Mirroring.loadVal] at h

/-- C4 amended: loading a serialized `Mirroring` code outside 0–4 is a hard
failure for the load — the process panics with "invalid Mirroring value" —
and the value is never silently accepted as some mirroring mode. -/
theorem mirroring_load_invalid_panics (val : Nat) (h : 4 < val) :
    Mirroring.loadVal val =
      RustOutcome.panicked ("invalid Mirroring value " ++ toString val) ∧
    (∀ m, Mirroring.loadVal val ≠ RustOutcome.ok m) := by
  have h0 : ¬val = 0 := by omega
  have h1 : ¬val = 1 := by omega
  have h2 : ¬val = 2 := by omega
  have h3 : ¬val = 3 := by omega
  have h4 : ¬val = 4 := by omega
  unfold Mirroring.loadVal
  simp [h0, h1, h2, h3, h4]

/-- C4 witness: code 7 panics and is not accepted. -/
theorem mirroring_load_invalid_panics_witness :
    Mirroring.loadVal 7 =
      RustOutcome.panicked ("invalid Mirroring value " ++ toString 7) ∧
    (∀ m, Mirroring.loadVal 7 ≠ RustOutcome.ok m) :=
  mirroring_load_invalid_panics 7 (by decide)

/-- C5 counterexample: on a cartridge declaring one 8K CHR bank the spec's
mask is 0, yet writing 1 to `$8000` sets the CHR bank register to 1 — the
source masks with the constant `3`, not with a CHR-size-derived mask. -/
theorem cnrom_chr_mask_counterexample :
    Option.map (fun m => m.chr_bank) ((Cnrom.load cnromCartOneChr).writeb 0x8000 1) =
      some 1 ∧
    Option.map (fun m => m.chr_bank) ((Cnrom.load cnromCartOneChr).writeb 0x8000 1) ≠
      some (1 &&& specChrBankMask cnromCartOneChr.header.chr_rom_size) := by
  have hsz : cnromCartOneChr.header.chr_rom_size = 1 := rfl
  have hmask : specChrBankMask cnromCartOneChr.header.chr_rom_size = 0 := by
    rw [hsz]
    simp [specChrBankMask, Nat.clog_one_right]
  rw [hmask]
  exact ⟨by decide, by decide⟩

/-- C5 amended: writing byte `v` anywhere in `$8000-$FFFF` sets the CHR
bank to `v & 3` (a fixed two-bit mask, regardless of the declared CHR
size), leaves the cartridge untouched, and every subsequent pattern-table
read at `$0000-$1FFF` reads the backing store at
`(v & 3) * 0x2000 + address`. -/
theorem cnrom_write_selects_bank (m : Cnrom) (addr v : Nat)
    (h1 : 0x8000 ≤ addr) (h2 : addr ≤ 0xFFFF) :
    ∃ m', m.writeb addr v = some m' ∧
      m'.chr_bank = v &&& 3 ∧
      m'.cart = m.cart ∧
      (∀ paddr, paddr ≤ 0x1FFF →
        m'.readb paddr =
          (if m.cart.header.chr_rom_size = 0 then m.cart.prg_rom
           else m.cart.chr_rom).get? ((v &&& 3) * 0x2000 + paddr)) := by
  have hn1 : ¬addr ≤ 0x1FFF := by omega
  have hn2 : ¬(0x6000 ≤ addr ∧ addr ≤ 0x7FFF) := by omega
  refine ⟨{ m with chr_bank := v &&& 3 }, ?_, rfl, rfl, ?_⟩
  · unfold Cnrom.writeb
    rw [if_neg hn1, if_neg hn2, if_pos ⟨h1, h2⟩]
  · intro paddr hp
    have hv : v &&& 3 ≤ 3 := Nat.and_le_right
    have hlt : (v &&& 3) * 0x2000 + paddr < 65536 := by omega
    simp only [Cnrom.readb, if_pos hp]
    rw [Nat.mod_eq_of_lt hlt]
    by_cases hc : m.cart.header.chr_rom_size = 0 <;> simp [hc]

/-- C5 witness: a concrete write of `0xAB` to `$9ABC`. -/
theorem cnrom_write_selects_bank_witness :
    ∃ m', (Cnrom.load cnromCartNoChr).writeb 0x9ABC 0xAB = some m' ∧
      m'.chr_bank = 0xAB &&& 3 ∧
      m'.cart = (Cnrom.load cnromCartNoChr).cart ∧
      (∀ paddr, paddr ≤ 0x1FFF →
        m'.readb paddr =
          (if (Cnrom.load cnromCartNoChr).cart.header.chr_rom_size = 0 then
            (Cnrom.load cnromCartNoChr).cart.prg_rom
           else (Cnrom.load cnromCartNoChr).cart.chr_rom).get?
            ((0xAB &&& 3) * 0x2000 + paddr)) :=
  cnrom_write_selects_bank _ _ _ (by decide) (by decide)

/-- C10: pattern-table accesses at `$0000-$1FFF` are backed by the
cartridge's `prg_rom` array (at the 16-bit offset `chr_bank * 0x2000 +
addr`) when the header declares no CHR-ROM — reads index it and writes
store into it — while with CHR-ROM present reads come from `chr_rom` and
writes leave the state unchanged. -/
theorem cnrom_pattern_backing (m : Cnrom) (addr val : Nat) (h : addr ≤ 0x1FFF) :
    (m.cart.header.chr_rom_size = 0 →
      m.readb addr = m.cart.prg_rom.get? ((m.chr_bank * 0x2000 + addr) % 65536) ∧
      m.writeb addr val =
        (if (m.chr_bank * 0x2000 + addr) % 65536 < m.cart.prg_rom.length then
          some { m with cart := { m.cart with
            prg_rom :=
              m.cart.prg_rom.set ((m.chr_bank * 0x2000 + addr) % 65536) val } }
         else none)) ∧
    (¬m.cart.header.chr_rom_size = 0 →
      m.readb addr = m.cart.chr_rom.get? ((m.chr_bank * 0x2000 + addr) % 65536) ∧
      m.writeb addr val = some m) := by
  constructor
  · intro hc
    constructor
    · simp only [Cnrom.readb, if_pos h, if_pos hc]
    · simp only [Cnrom.writeb, if_pos h, if_pos hc, setByte]
      split_ifs with hlen <;> rfl
  · intro hc
    constructor
    · simp only [Cnrom.readb, if_pos h, if_neg hc]
    · simp only [Cnrom.writeb, if_pos h, if_neg hc]

/-- C10 witness: a concrete pattern-table access on a CHR-RAM-less
cartridge. -/
theorem cnrom_pattern_backing_witness :
    ((Cnrom.load cnromCartNoChr).cart.header.chr_rom_size = 0 →
      (Cnrom.load cnromCartNoChr).readb 0x0123 =
        (Cnrom.load cnromCartNoChr).cart.prg_rom.get?
          (((Cnrom.load cnromCartNoChr).chr_bank * 0x2000 + 0x0123) % 65536) ∧
      (Cnrom.load cnromCartNoChr).writeb 0x0123 9 =
        (if ((Cnrom.load cnromCartNoChr).chr_bank * 0x2000 + 0x0123) % 65536 <
            (Cnrom.load cnromCartNoChr).cart.prg_rom.length then
          some { Cnrom.load cnromCartNoChr with
            cart := { (Cnrom.load cnromCartNoChr).cart with
              prg_rom :=
                (Cnrom.load cnromCartNoChr).cart.prg_rom.set
                  (((Cnrom.load cnromCartNoChr).chr_bank * 0x2000 + 0x0123) % 65536) 9 } }
         else none)) ∧
    (¬(Cnrom.load cnromCartNoChr).cart.header.chr_rom_size = 0 →
      (Cnrom.load cnromCartNoChr).readb 0x0123 =
        (Cnrom.load cnromCartNoChr).cart.chr_rom.get?
          (((Cnrom.load cnromCartNoChr).chr_bank * 0x2000 + 0x0123) % 65536) ∧
      (Cnrom.load cnromCartNoChr).writeb 0x0123 9 = some (Cnrom.load cnromCartNoChr)) :=
  cnrom_pattern_backing (Cnrom.load cnromCartNoChr) 0x0123 9 (by decide)

/-- C2: the IRQ counter changes only for PPU addresses below `$2000` and
only on a qualifying A12 edge; on such an edge it reloads from the latch
when it is zero or a reload is pending, and decrements otherwise. -/
theorem txrom_irq_counter_clocking (s : Txrom) (addr : Nat) :
    (¬(addr < 0x2000 ∧ s.qualifies addr) →
      (s.clockIrq addr).regs.irq_counter = s.regs.irq_counter) ∧
    (addr < 0x2000 → s.qualifies addr →
      (s.clockIrq addr).regs.irq_counter =
        (if s.regs.irq_counter = 0 ∨ s.regs.irq_reload = true then s.regs.irq_latch
         else s.regs.irq_counter - 1)) := by
  unfold Txrom.clockIrq Txrom.qualifies
  by_cases ha : addr < 0x2000
  · simp only [ha, if_true, true_and]
    split_ifs <;> simp_all
  · simp [ha]

/-- C2 witness: on the freshly loaded mapper, address `$1000` is a
qualifying 0→1 edge (counter reloads from the latch) and address `$0000`
is not (counter unchanged). -/
theorem txrom_irq_counter_clocking_witness :
    (0x1000 < 0x2000 ∧ (Txrom.load txCart0).qualifies 0x1000) ∧
    ((Txrom.load txCart0).clockIrq 0x1000).regs.irq_counter =
      (if (Txrom.load txCart0).regs.irq_counter = 0 ∨
          (Txrom.load txCart0).regs.irq_reload = true then
        (Txrom.load txCart0).regs.irq_latch
       else (Txrom.load txCart0).regs.irq_counter - 1) ∧
    ((Txrom.load txCart0).clockIrq 0x0000).regs.irq_counter =
      (Txrom.load txCart0).regs.irq_counter :=
  ⟨by decide,
   (txrom_irq_counter_clocking (Txrom.load txCart0) 0x1000).2 (by decide) (by decide),
   (txrom_irq_counter_clocking (Txrom.load txCart0) 0x0000).1 (by decide)⟩

/-- C1: on a qualifying A12 edge, the pending-IRQ flag ends up true iff it
already was true or (the counter was odd before the update, or the
revision is B/C, or a reload was pending) and the post-update counter is
zero and IRQ generation is enabled; the reload-pending flag is always
cleared by the edge. -/
theorem txrom_irq_fire (s : Txrom) (addr : Nat)
    (ha : addr < 0x2000) (hq : s.qualifies addr) :
    ((s.clockIrq addr).irq_pending = true ↔
      (s.irq_pending = true ∨
        ((s.regs.irq_counter &&& 1 = 1 ∨ s.revision = Mmc3Revision.BC ∨
            s.regs.irq_reload = true) ∧
          (s.clockIrq addr).regs.irq_counter = 0 ∧ s.regs.irq_enabled = true))) ∧
    (s.clockIrq addr).regs.irq_reload = false := by
  obtain ⟨h1, h2⟩ := hq
  unfold Txrom.clockIrq
  simp only [ha, if_true, h1, h2, and_self, true_and]
  split_ifs <;> simp_all

/-- C1 witness: a qualifying edge on a state with counter 1, reload clear,
IRQ enabled. -/
theorem txrom_irq_fire_witness :
    (0x1000 < 0x2000 ∧ txFireState.qualifies 0x1000) ∧
    ((txFireState.clockIrq 0x1000).irq_pending = true ↔
      (txFireState.irq_pending = true ∨
        ((txFireState.regs.irq_counter &&& 1 = 1 ∨
            txFireState.revision = Mmc3Revision.BC ∨
            txFireState.regs.irq_reload = true) ∧
          (txFireState.clockIrq 0x1000).regs.irq_counter = 0 ∧
          txFireState.regs.irq_enabled = true))) ∧
    (txFireState.clockIrq 0x1000).regs.irq_reload = false :=
  ⟨by decide, txrom_irq_fire txFireState 0x1000 (by decide) (by decide)⟩

/-- The `clock_irq` step touches only the IRQ registers: the bank tables and the
mirroring mode are untouched. -/
theorem clockIrq_preserves (s : Txrom) (addr : Nat) :
    (s.clockIrq addr).chr_banks = s.chr_banks ∧
    (s.clockIrq addr).prg_ram_banks = s.prg_ram_banks ∧
    (s.clockIrq addr).prg_rom_banks = s.prg_rom_banks ∧
    (s.clockIrq addr).mirroring = s.mirroring ∧
    (s.clockIrq addr).revision = s.revision ∧
    (s.clockIrq addr).regs.bank_select = s.regs.bank_select := by
  unfold Txrom.clockIrq
  split_ifs <;> (try simp) <;> (try split_ifs) <;> simp

/-- C8: `map_read` returns exactly the mapped location `map_peek` computes
from the same starting state, and its only state effect is the IRQ
clocking; `map_peek` itself is a pure function of the state (it takes
`&self`) and changes nothing. -/
theorem txrom_read_peek_agree (s : Txrom) (addr : Nat) :
    (s.mapRead addr).1 = s.mapPeek addr ∧ (s.mapRead addr).2 = s.clockIrq addr := by
  obtain ⟨h1, h2, h3, h4, -⟩ := clockIrq_preserves s addr
  constructor
  · show (s.clockIrq addr).mapPeek addr = s.mapPeek addr
    unfold Txrom.mapPeek
    rw [h1, h2, h3, h4]
  · rfl

/-- The `update_banks` step recomputes only the bank tables. -/
theorem updateBanks_irq_pending (s : Txrom) :
    (s.updateBanks).irq_pending = s.irq_pending := rfl

/-- The `update_banks` step leaves the register file unchanged. -/
theorem updateBanks_regs (s : Txrom) : (s.updateBanks).regs = s.regs := rfl

/-- The `update_banks` step leaves the mirroring unchanged. -/
theorem updateBanks_mirroring (s : Txrom) : (s.updateBanks).mirroring = s.mirroring := rfl

/-- C6: a CPU write decoding to the `$A000` register switches the
mirroring reported by the very next `mirroring()` call to Vertical or
Horizontal according to bit 0 of the value, unless the mapper is in
four-screen mode, in which case the write leaves the mirroring as is. -/
theorem txrom_a000_mirroring (s : Txrom) (addr val : Nat)
    (haddr : addr ≤ 0xFFFF) (hreg : addr &&& 0xE001 = 0xA000) :
    (s.mirroring ≠ Mirroring.FourScreen →
      (s.mapWrite addr val).2.mirroring =
        (if val &&& 0x01 = 0 then Mirroring.Vertical else Mirroring.Horizontal)) ∧
    (s.mirroring = Mirroring.FourScreen →
      (s.mapWrite addr val).2.mirroring = s.mirroring) := by
  have hge : 0xA000 ≤ addr := hreg ▸ Nat.and_le_left
  have hn1 : ¬addr ≤ 0x1FFF := by omega
  have hn2 : ¬(0x2000 ≤ addr ∧ addr ≤ 0x3EFF ∧ s.mirroring = Mirroring.FourScreen) := by
    rintro ⟨-, h, -⟩; omega
  have hn3 : ¬(0x6000 ≤ addr ∧ addr ≤ 0x7FFF) := by omega
  have h4 : 0x8000 ≤ addr ∧ addr ≤ 0xFFFF := ⟨by omega, haddr⟩
  simp only [Txrom.mapWrite, if_neg hn1, if_neg hn2, if_neg hn3, if_pos h4,
    Txrom.writeRegister, hreg]
  constructor
  · intro hm
    simp [hm, updateBanks_mirroring]
  · intro hm
    simp [hm]

/-- C6 witness: a `$A000` write with bit 0 clear on a
horizontally-mirrored mapper. -/
theorem txrom_a000_mirroring_witness :
    ((Txrom.load txCart0).mirroring ≠ Mirroring.FourScreen →
      ((Txrom.load txCart0).mapWrite 0xA000 0).2.mirroring =
        (if 0 &&& 0x01 = 0 then Mirroring.Vertical else Mirroring.Horizontal)) ∧
    ((Txrom.load txCart0).mirroring = Mirroring.FourScreen →
      ((Txrom.load txCart0).mapWrite 0xA000 0).2.mirroring =
        (Txrom.load txCart0).mirroring) :=
  txrom_a000_mirroring (Txrom.load txCart0) 0xA000 0 (by decide) (by decide)

/-- The `clock_irq` step never clears a latched IRQ. -/
theorem clockIrq_pending_mono (s : Txrom) (addr : Nat)
    (hp : s.irq_pending = true) : (s.clockIrq addr).irq_pending = true := by
  unfold Txrom.clockIrq
  split_ifs <;> simp_all
  all_goals (split_ifs <;> simp_all)

/-- A register write that does not decode to `$E000` leaves the
pending-IRQ flag unchanged. -/
theorem writeRegister_pending (s : Txrom) (a v : Nat)
    (hack : ¬a &&& 0xE001 = 0xE000) :
    (s.writeRegister a v).irq_pending = s.irq_pending := by
  unfold Txrom.writeRegister
  split_ifs <;> simp_all [updateBanks_irq_pending]

/-- A CPU write that does not decode to `$E000` leaves the pending-IRQ
flag unchanged. -/
theorem mapWrite_pending (s : Txrom) (a v : Nat)
    (hack : ¬a &&& 0xE001 = 0xE000) :
    ((s.mapWrite a v).2).irq_pending = s.irq_pending := by
  unfold Txrom.mapWrite
  split_ifs <;> first
    | rfl
    | exact writeRegister_pending s a v hack

/-- C9: a latched IRQ stays latched across every bus operation except the
two acknowledgements — a CPU write decoding to `$E000`, or a reset — and
each acknowledgement clears the pending flag and disables IRQ generation.
(`map_peek` takes `&self` and cannot change any state.) -/
theorem txrom_irq_latch_until_ack (s : Txrom) (op : TxOp)
    (hwf : op.wf) (hp : s.irq_pending = true) :
    (¬op.acks → (op.apply s).irq_pending = true) ∧
    (op.acks → (op.apply s).irq_pending = false ∧
      (op.apply s).regs.irq_enabled = false) := by
  cases op with
  | read a => exact ⟨fun _ => clockIrq_pending_mono s a hp, fun h => h.elim⟩
  | ppuRead a => exact ⟨fun _ => clockIrq_pending_mono s a hp, fun h => h.elim⟩
  | ppuWrite a v => exact ⟨fun _ => clockIrq_pending_mono s a hp, fun h => h.elim⟩
  | reset => exact ⟨fun h => absurd trivial h, fun _ => ⟨rfl, rfl⟩⟩
  | write a v =>
    obtain ⟨ha, hv⟩ := hwf
    by_cases hack : a &&& 0xE001 = 0xE000
    · refine ⟨fun h => absurd hack h, fun _ => ?_⟩
      have hge : 0xE000 ≤ a := hack ▸ Nat.and_le_left
      have hn1 : ¬a ≤ 0x1FFF := by omega
      have hn2 : ¬(0x2000 ≤ a ∧ a ≤ 0x3EFF ∧ s.mirroring = Mirroring.FourScreen) := by
        rintro ⟨-, h2, -⟩; omega
      have hn3 : ¬(0x6000 ≤ a ∧ a ≤ 0x7FFF) := by omega
      have h4 : 0x8000 ≤ a ∧ a ≤ 0xFFFF := ⟨by omega, by omega⟩
      simp only [TxOp.apply, Txrom.mapWrite, if_neg hn1, if_neg hn2, if_neg hn3,
        if_pos h4, Txrom.writeRegister, hack]
      simp
    · refine ⟨fun _ => ?_, fun h => absurd h hack⟩
      show ((s.mapWrite a v).2).irq_pending = true
      rw [mapWrite_pending s a v hack, hp]

/-- C9 witness: on a latched state, a CHR write does not clear the flag
and a `$E000` write does. -/
theorem txrom_irq_latch_until_ack_witness :
    (¬(TxOp.ppuRead 0x0000).acks →
      ((TxOp.ppuRead 0x0000).apply txPendingState).irq_pending = true) ∧
    ((TxOp.write 0xE000 0).acks →
      ((TxOp.write 0xE000 0).apply txPendingState).irq_pending = false ∧
      ((TxOp.write 0xE000 0).apply txPendingState).regs.irq_enabled = false) :=
  ⟨(txrom_irq_latch_until_ack txPendingState (TxOp.ppuRead 0x0000)
      (by decide) rfl).1,
   (txrom_irq_latch_until_ack txPendingState (TxOp.write 0xE000 0)
      (by decide) rfl).2⟩

/-- Four consecutive `set`s on a 4-slot bank table replace it outright. -/
theorem prg_set_pattern (b : MemBanks) (hlen : b.banks.length = 4) (p q r t : Nat) :
    (((b.set 0 p).set 1 q).set 2 r).set 3 t = { b with banks := [p, q, r, t] } := by
  rcases b with ⟨st, w, sz, banks⟩
  simp only [MemBanks.set]
  rcases banks with _ | ⟨x0, _ | ⟨x1, _ | ⟨x2, _ | ⟨x3, _ | ⟨x4, rest⟩⟩⟩⟩⟩ <;>
    simp_all [List.set]

/-- The `update_banks` step establishes the fixed-PRG-slot invariant in one shot. -/
theorem updateBanks_prgInv (s : Txrom) (hlen : s.prg_rom_banks.banks.length = 4) :
    TxPrgInv (s.updateBanks) := by
  unfold TxPrgInv Txrom.updateBanks
  by_cases h6 : s.regs.bank_select &&& 0x40 = 0x40
  · simp only [if_pos h6]
    rw [prg_set_pattern _ hlen]
    simp [MemBanks.last, MemBanks.bankCount, h6]
  · simp only [if_neg h6]
    rw [prg_set_pattern _ hlen]
    simp [MemBanks.last, MemBanks.bankCount, h6]

/-- A state with the same PRG window table and bank-select byte inherits
the invariant. -/
theorem prgInv_of_same (s s' : Txrom)
    (hbanks : s'.prg_rom_banks = s.prg_rom_banks)
    (hsel : s'.regs.bank_select = s.regs.bank_select)
    (h : TxPrgInv s) : TxPrgInv s' := by
  unfold TxPrgInv at *
  rw [hbanks, hsel]
  exact h

/-- Loading establishes the fixed-PRG-slot invariant. -/
theorem load_prgInv (cart : Cart) : TxPrgInv (Txrom.load cart) := by
  unfold TxPrgInv Txrom.load
  simp [MemBanks.new, MemBanks.set, MemBanks.last, MemBanks.bankCount, TxRegs.new,
    List.set]

/-- Every register write preserves the fixed-PRG-slot invariant. -/
theorem writeRegister_prgInv (s : Txrom) (a v : Nat) (h : TxPrgInv s) :
    TxPrgInv (s.writeRegister a v) := by
  unfold Txrom.writeRegister
  split_ifs <;> first
    | exact updateBanks_prgInv _ h.1
    | exact prgInv_of_same s _ rfl rfl h

/-- Every bus operation preserves the fixed-PRG-slot invariant. -/
theorem prgInv_step (s : Txrom) (op : TxOp) (h : TxPrgInv s) :
    TxPrgInv (op.apply s) := by
  cases op with
  | read a =>
    obtain ⟨-, -, h3, -, -, h6⟩ := clockIrq_preserves s a
    exact prgInv_of_same s _ h3 h6 h
  | ppuRead a =>
    obtain ⟨-, -, h3, -, -, h6⟩ := clockIrq_preserves s a
    exact prgInv_of_same s _ h3 h6 h
  | ppuWrite a v =>
    obtain ⟨-, -, h3, -, -, h6⟩ := clockIrq_preserves s a
    exact prgInv_of_same s _ h3 h6 h
  | reset => exact updateBanks_prgInv _ h.1
  | write a v =>
    show TxPrgInv (s.mapWrite a v).2
    unfold Txrom.mapWrite
    split_ifs <;> first
      | exact h
      | exact writeRegister_prgInv s a v h

/-- The fixed-PRG-slot invariant holds in every reachable state. -/
theorem txPrgInv_reachable (cart : Cart) (s : Txrom) (h : TxReachable cart s) :
    TxPrgInv s := by
  induction h with
  | load => exact load_prgInv cart
  | step s' op hr ih => exact prgInv_step s' op ih

/-- C7: in every state reachable from load by reads, writes, PPU
notifications and resets, PRG window slot 3 (`$E000-$FFFF`) holds the last
8K PRG-ROM bank, and the second-to-last bank sits in slot 2
(`$C000-$DFFF`) when bank-select bit 6 is clear and in slot 0
(`$8000-$9FFF`) when it is set. -/
theorem txrom_prg_fixed_slots (cart : Cart) (s : Txrom) (h : TxReachable cart s) :
    s.prg_rom_banks.banks.getD 3 0 = s.prg_rom_banks.last ∧
    (s.regs.bank_select &&& 0x40 = 0x40 →
      s.prg_rom_banks.banks.getD 0 0 = s.prg_rom_banks.last - 1) ∧
    (¬s.regs.bank_select &&& 0x40 = 0x40 →
      s.prg_rom_banks.banks.getD 2 0 = s.prg_rom_banks.last - 1) := by
  obtain ⟨-, h2, h3, h4⟩ := txPrgInv_reachable cart s h
  exact ⟨h2, h3, h4⟩

/-- C7 witness: the loaded state of a 32K-PRG cartridge. -/
theorem txrom_prg_fixed_slots_witness :
    (Txrom.load txCart0).prg_rom_banks.banks.getD 3 0 =
      (Txrom.load txCart0).prg_rom_banks.last ∧
    ((Txrom.load txCart0).regs.bank_select &&& 0x40 = 0x40 →
      (Txrom.load txCart0).prg_rom_banks.banks.getD 0 0 =
        (Txrom.load txCart0).prg_rom_banks.last - 1) ∧
    (¬(Txrom.load txCart0).regs.bank_select &&& 0x40 = 0x40 →
      (Txrom.load txCart0).prg_rom_banks.banks.getD 2 0 =
        (Txrom.load txCart0).prg_rom_banks.last - 1) :=
  txrom_prg_fixed_slots txCart0 (Txrom.load txCart0) TxReachable.load
